import Mathlib

/-!
Verification of the platform shared memory region abstraction
(base/memory/platform_shared_memory_region) against its specification.

The repository ships the unit-test surface
(src/memory/platform_shared_memory_region_unittest.cc); the implementation
translation below follows the specification's description of the Region,
its mode state machine, its size/offset validators and its POSIX handle
shape, and is exercised on the concrete scenarios of the test file.
-/

namespace Base

/-- Modelled from the spec: the access-mode enum of a Region
(PlatformSharedMemoryRegion::Mode in the missing header), with the three
declared modes Writable, ReadOnly and Unsafe. -/
inductive Mode where
  | kWritable
  | kReadOnly
  | kUnsafe
deriving DecidableEq

/-- Modelled from the spec: the POSIX platform handle (FDPair in the missing
header): a main descriptor, its access mode as opened (O_RDWR when
fdWritable, O_RDONLY otherwise), and a secondary read-only descriptor that
exists only on writable regions. A descriptor is valid iff it is
nonnegative; the invalid sentinel is -1. -/
structure FDPair where
  fd : Int
  fdWritable : Bool
  readonly_fd : Int
deriving DecidableEq

/-- The invalid (default-constructed) descriptor pair. -/
def nullFDPair : FDPair := { fd := -1, fdWritable := false, readonly_fd := -1 }

/-- Modelled from the spec: the Region entity (PlatformSharedMemoryRegion in
the missing header): an owned platform handle, a mode, a declared size and a
128-bit identifier (kept opaque as a natural number). -/
structure PlatformSharedMemoryRegion where
  handle : FDPair
  mode : Mode
  size : Nat
  guid : Nat
deriving DecidableEq

/-- Modelled from the spec: an operation outcome.  ok carries the returned
value; abort models an unconditional process abort (CHECK failure) carrying
the diagnostic text that would be printed. -/
inductive Outcome (α : Type) where
  | ok : α → Outcome α
  | abort : String → Outcome α
deriving DecidableEq

/-- The legacy signed 32-bit size bound on region sizes. -/
def kIntMax : Nat := 2 ^ 31 - 1

/-- The largest value representable in the native size_t word. -/
def kSizeTMax : Nat := 2 ^ 64 - 1

/-- Modelled from the spec: a CHECK diagnostic as observed by a death test.
Official builds suppress the message text but still abort; non-official
builds print the full message. -/
def checkMessage (official : Bool) (msg : String) : String :=
  if official then "" else msg

/-- Diagnostic of the direct read-only creation precondition violation. -/
def kCreateReadOnlyMessage : String :=
  "Creating a region in read-only mode will lead to this region being non-modifiable"

/-- Diagnostic of the writable-duplication precondition violation. -/
def kDuplicateWritableMessage : String :=
  "Duplicating a writable shared memory region is prohibited"

/-- Diagnostic of a forbidden conversion to read-only. -/
def kConvertToReadOnlyMessage : String :=
  "Only writable shared memory region can be converted to read-only"

/-- Diagnostic of a forbidden conversion to unsafe. -/
def kConvertToUnsafeMessage : String :=
  "Only writable shared memory region can be converted to unsafe"

namespace PlatformSharedMemoryRegion

/-- A Region is valid iff its main descriptor is valid. -/
def IsValid (r : PlatformSharedMemoryRegion) : Bool :=
  decide (0 ≤ r.handle.fd)

/-- The declared size, fixed at creation. -/
def GetSize (r : PlatformSharedMemoryRegion) : Nat := r.size

/-- The current access mode. -/
def GetMode (r : PlatformSharedMemoryRegion) : Mode := r.mode

/-- The region identifier. -/
def GetGUID (r : PlatformSharedMemoryRegion) : Nat := r.guid

/-- A non-owning peek at the platform handle. -/
def GetPlatformHandle (r : PlatformSharedMemoryRegion) : FDPair := r.handle

/-- A default-constructed Region: no handle, and therefore invalid. -/
def defaultRegion : PlatformSharedMemoryRegion :=
  { handle := nullFDPair, mode := Mode.kReadOnly, size := 0, guid := 0 }

/-- Modelled from the spec: the shared creation path behind CreateWritable
and CreateUnsafe.  Validates 0 < size and size not above the signed 32-bit
bound; on failure returns an invalid Region with no resource allocated.  On
success the OS allocator (an external collaborator) supplies the fresh
descriptor numbers; they are passed in as osfd and os_ro_fd.  A writable
region carries the main descriptor opened read-write plus the secondary
read-only descriptor; an unsafe region carries only the read-write main
descriptor. -/
def createRegion (mode : Mode) (size guid osfd os_ro_fd : Nat) :
    PlatformSharedMemoryRegion :=
  if size = 0 ∨ kIntMax < size then defaultRegion
  else
    { handle :=
        { fd := Int.ofNat osfd
          fdWritable := true
          readonly_fd := if mode = Mode.kWritable then Int.ofNat os_ro_fd else -1 }
      mode := mode
      size := size
      guid := guid }

/-- Modelled from the spec: Create(mode, size).  Creating directly in
read-only mode is a precondition violation that aborts the process; the
other modes go through the validated creation path. -/
def Create (official : Bool) (mode : Mode) (size guid osfd os_ro_fd : Nat) :
    Outcome PlatformSharedMemoryRegion :=
  if mode = Mode.kReadOnly then
    Outcome.abort (checkMessage official kCreateReadOnlyMessage)
  else Outcome.ok (createRegion mode size guid osfd os_ro_fd)

/-- Modelled from the spec: CreateWritable(size). -/
def CreateWritable (size guid osfd os_ro_fd : Nat) : PlatformSharedMemoryRegion :=
  createRegion Mode.kWritable size guid osfd os_ro_fd

/-- Modelled from the spec: CreateUnsafe(size). -/
def CreateUnsafe (size guid osfd : Nat) : PlatformSharedMemoryRegion :=
  createRegion Mode.kUnsafe size guid osfd 0

/-- Modelled from the spec: ConvertToReadOnly.  On an invalid Region this is
a recoverable failure returning false; on a valid non-writable Region it is
a precondition violation that aborts; on a valid writable Region the main
descriptor is replaced by the secondary read-only descriptor (the old
read-write descriptor is closed), the secondary slot becomes invalid, and
the mode becomes ReadOnly. -/
def ConvertToReadOnly (official : Bool) (r : PlatformSharedMemoryRegion) :
    Outcome (Bool × PlatformSharedMemoryRegion) :=
  if r.IsValid = false then Outcome.ok (false, r)
  else if r.mode ≠ Mode.kWritable then
    Outcome.abort (checkMessage official kConvertToReadOnlyMessage)
  else
    Outcome.ok (true,
      { r with
          handle :=
            { fd := r.handle.readonly_fd, fdWritable := false, readonly_fd := -1 }
          mode := Mode.kReadOnly })

/-- Modelled from the spec: ConvertToUnsafe.  On an invalid Region this is a
recoverable failure returning false; on a valid non-writable Region it is a
precondition violation that aborts; on a valid writable Region the secondary
read-only descriptor is closed and the mode becomes Unsafe, the main
read-write descriptor staying as it is. -/
def ConvertToUnsafe (official : Bool) (r : PlatformSharedMemoryRegion) :
    Outcome (Bool × PlatformSharedMemoryRegion) :=
  if r.IsValid = false then Outcome.ok (false, r)
  else if r.mode ≠ Mode.kWritable then
    Outcome.abort (checkMessage official kConvertToUnsafeMessage)
  else
    Outcome.ok (true,
      { r with
          handle :=
            { fd := r.handle.fd, fdWritable := r.handle.fdWritable, readonly_fd := -1 }
          mode := Mode.kUnsafe })

/-- Modelled from the spec: Duplicate.  On an invalid Region this is a
recoverable failure returning an invalid Region; on a writable Region it is
a precondition violation that aborts; otherwise the OS duplicates the main
descriptor (newfd is the fresh descriptor number the OS returns) and the new
Region shares mode, size and identifier. -/
def Duplicate (official : Bool) (newfd : Nat) (r : PlatformSharedMemoryRegion) :
    Outcome PlatformSharedMemoryRegion :=
  if r.IsValid = false then Outcome.ok defaultRegion
  else if r.mode = Mode.kWritable then
    Outcome.abort (checkMessage official kDuplicateWritableMessage)
  else
    Outcome.ok
      { r with
          handle :=
            { fd := Int.ofNat newfd
              fdWritable := r.handle.fdWritable
              readonly_fd := -1 } }

/-- Modelled from the spec: PassPlatformHandle removes the handle from the
Region and returns it; the Region keeps its metadata but becomes invalid. -/
def PassPlatformHandle (r : PlatformSharedMemoryRegion) :
    FDPair × PlatformSharedMemoryRegion :=
  (r.handle, { r with handle := nullFDPair })

/-- Modelled from the spec: a move.  The first component is the destination
(receiving every field of the source), the second the moved-from source,
whose handle has been emptied. -/
def moveRegion (r : PlatformSharedMemoryRegion) :
    PlatformSharedMemoryRegion × PlatformSharedMemoryRegion :=
  (r, { r with handle := nullFDPair })

/-- The descriptors a ScopedFDPair would close when released: exactly the
valid descriptors it holds. -/
def closedFDs (h : FDPair) : List Int :=
  (if 0 ≤ h.fd then [h.fd] else []) ++ (if 0 ≤ h.readonly_fd then [h.readonly_fd] else [])

/-- Result of Take: the reconstructed Region together with the descriptors
the call released (ownership of the input handle is always consumed). -/
structure TakeResult where
  region : PlatformSharedMemoryRegion
  released : List Int
deriving DecidableEq

/-- Modelled from the spec: Take(handle, mode, size, guid) reconstructs a
Region from a transferred handle and its out-of-band metadata.  The size is
re-validated independently of the sender's claim; on failure the result is
an invalid Region and the input handle is released (its valid descriptors
are closed), never leaked. -/
def Take (h : FDPair) (mode : Mode) (size guid : Nat) : TakeResult :=
  if size = 0 ∨ kIntMax < size then
    { region := defaultRegion, released := closedFDs h }
  else
    { region := { handle := h, mode := mode, size := size, guid := guid }
      released := [] }

/-- Modelled from the spec: the mapping-request validator behind MapAt.
Rules in order: the Region must be valid; the requested size must be
nonzero; offset + size is computed with overflow-checked arithmetic and must
fit the native word; the exact sum must not exceed the declared region
size.  The result says whether a valid mapping is produced. -/
def MapAt (r : PlatformSharedMemoryRegion) (offset rsize : Nat) : Bool :=
  if r.IsValid = false then false
  else if rsize = 0 then false
  else if kSizeTMax < offset + rsize then false
  else decide (offset + rsize ≤ r.size)

/-- The main-descriptor access the handle of a region of the given mode must
have been opened with: read-write except in read-only mode. -/
def expectedWritableAccess (mode : Mode) : Bool :=
  match mode with
  | Mode.kReadOnly => false
  | _ => true

/-- Modelled from the spec: the POSIX handle-permission verifier.  The main
descriptor must be valid and opened with exactly the access the claimed mode
requires; a writable claim additionally requires the secondary read-only
descriptor to be present, and the other two claims require it to be
absent. -/
def CheckPlatformHandlePermissionsCorrespondToMode
    (h : FDPair) (mode : Mode) (size : Nat) : Bool :=
  if h.fd < 0 then false
  else if h.fdWritable ≠ expectedWritableAccess mode then false
  else
    match mode with
    | Mode.kWritable => decide (0 ≤ h.readonly_fd)
    | _ => decide (h.readonly_fd < 0)

/-- The writable permission shape: a valid read-write main descriptor
together with a valid secondary read-only descriptor. -/
def IsWritableShaped (h : FDPair) : Bool :=
  decide (0 ≤ h.fd) && h.fdWritable && decide (0 ≤ h.readonly_fd)

/-- The read-only permission shape: a valid read-only main descriptor and no
secondary descriptor. -/
def IsReadOnlyShaped (h : FDPair) : Bool :=
  decide (0 ≤ h.fd) && !h.fdWritable && decide (h.readonly_fd < 0)

/-- The unsafe permission shape: a valid read-write main descriptor and no
secondary descriptor. -/
def IsUnsafeShaped (h : FDPair) : Bool :=
  decide (0 ≤ h.fd) && h.fdWritable && decide (h.readonly_fd < 0)

/-- Modelled from the spec: whether a handle can be used to perform a
writable mapping with low level system calls (mmap with PROT_WRITE needs a
descriptor opened read-write).  This is what
CheckReadOnlyPlatformSharedMemoryRegionForTesting probes (negated). -/
def CanMapWritable (h : FDPair) : Bool :=
  decide (0 ≤ h.fd) && h.fdWritable

/-- The representation invariant of a valid Region produced by the API: the
Region is valid, and its handle has exactly the permission shape of its
mode. -/
def Wf (r : PlatformSharedMemoryRegion) : Prop :=
  r.IsValid = true ∧
  (r.mode = Mode.kWritable → IsWritableShaped r.handle = true) ∧
  (r.mode = Mode.kReadOnly → IsReadOnlyShaped r.handle = true) ∧
  (r.mode = Mode.kUnsafe → IsUnsafeShaped r.handle = true)

instance (r : PlatformSharedMemoryRegion) : Decidable r.Wf := by
  unfold Wf; infer_instance

/-! Helper equations for the operations. -/

theorem isValid_true_iff (r : PlatformSharedMemoryRegion) :
    r.IsValid = true ↔ 0 ≤ r.handle.fd := by
  simp [IsValid]

theorem isValid_false_iff (r : PlatformSharedMemoryRegion) :
    r.IsValid = false ↔ r.handle.fd < 0 := by
  simp [IsValid, Int.not_le]

theorem createRegion_valid_size (mode : Mode) (s guid osfd os_ro_fd : Nat)
    (h1 : 0 < s) (h2 : s ≤ kIntMax) :
    createRegion mode s guid osfd os_ro_fd =
      { handle :=
          { fd := Int.ofNat osfd
            fdWritable := true
            readonly_fd := if mode = Mode.kWritable then Int.ofNat os_ro_fd else -1 }
        mode := mode
        size := s
        guid := guid } := by
  unfold createRegion
  rw [if_neg (by omega : ¬(s = 0 ∨ kIntMax < s))]

theorem createRegion_invalid_size (mode : Mode) (s guid osfd os_ro_fd : Nat)
    (h : s = 0 ∨ kIntMax < s) :
    createRegion mode s guid osfd os_ro_fd = defaultRegion := by
  unfold createRegion
  rw [if_pos h]

theorem defaultRegion_not_valid : defaultRegion.IsValid = false := rfl

theorem convertToReadOnly_invalid (official : Bool) (r : PlatformSharedMemoryRegion)
    (hv : r.IsValid = false) :
    ConvertToReadOnly official r = Outcome.ok (false, r) := by
  unfold ConvertToReadOnly
  rw [if_pos hv]

theorem convertToReadOnly_nonwritable (official : Bool) (r : PlatformSharedMemoryRegion)
    (hv : r.IsValid = true) (hm : r.mode ≠ Mode.kWritable) :
    ConvertToReadOnly official r =
      Outcome.abort (checkMessage official kConvertToReadOnlyMessage) := by
  unfold ConvertToReadOnly
  rw [if_neg (by simp [hv]), if_pos hm]

theorem convertToReadOnly_writable (official : Bool) (r : PlatformSharedMemoryRegion)
    (hv : r.IsValid = true) (hm : r.mode = Mode.kWritable) :
    ConvertToReadOnly official r =
      Outcome.ok (true,
        { r with
            handle :=
              { fd := r.handle.readonly_fd, fdWritable := false, readonly_fd := -1 }
            mode := Mode.kReadOnly }) := by
  unfold ConvertToReadOnly
  rw [if_neg (by simp [hv]), if_neg (by simp [hm])]

theorem convertToUnsafe_invalid (official : Bool) (r : PlatformSharedMemoryRegion)
    (hv : r.IsValid = false) :
    ConvertToUnsafe official r = Outcome.ok (false, r) := by
  unfold ConvertToUnsafe
  rw [if_pos hv]

theorem convertToUnsafe_nonwritable (official : Bool) (r : PlatformSharedMemoryRegion)
    (hv : r.IsValid = true) (hm : r.mode ≠ Mode.kWritable) :
    ConvertToUnsafe official r =
      Outcome.abort (checkMessage official kConvertToUnsafeMessage) := by
  unfold ConvertToUnsafe
  rw [if_neg (by simp [hv]), if_pos hm]

theorem convertToUnsafe_writable (official : Bool) (r : PlatformSharedMemoryRegion)
    (hv : r.IsValid = true) (hm : r.mode = Mode.kWritable) :
    ConvertToUnsafe official r =
      Outcome.ok (true,
        { r with
            handle :=
              { fd := r.handle.fd, fdWritable := r.handle.fdWritable, readonly_fd := -1 }
            mode := Mode.kUnsafe }) := by
  unfold ConvertToUnsafe
  rw [if_neg (by simp [hv]), if_neg (by simp [hm])]

theorem mapAt_true_iff (r : PlatformSharedMemoryRegion) (offset rsize : Nat) :
    MapAt r offset rsize = true ↔
      r.IsValid = true ∧ 0 < rsize ∧ offset + rsize ≤ kSizeTMax ∧
        offset + rsize ≤ r.size := by
  unfold MapAt
  split_ifs with h1 h2 h3
  · simp [h1]
  · simp [h2]
  · simp only [decide_eq_true_eq, false_iff]
    intro hc
    omega
  · simp only [decide_eq_true_eq]
    constructor
    · intro hle
      refine ⟨by simpa using h1, by omega, by omega, hle⟩
    · intro hc
      exact hc.2.2.2

/-! The claim theorems. -/

/-- C4: a mapping request is rejected whenever offset + requested_size
exceeds the region's declared size, the sum being computed with
overflow-checked arithmetic: in particular a sum that does not fit the
native 64-bit word is rejected outright, even when its native-word
wraparound would be smaller than the region size. -/
theorem c4_overflow_checked_bounds (r : PlatformSharedMemoryRegion)
    (offset rsize : Nat) :
    (r.GetSize < offset + rsize → MapAt r offset rsize = false) ∧
    (2 ^ 64 ≤ offset + rsize → MapAt r offset rsize = false) ∧
    (2 ^ 64 ≤ offset + rsize → (offset + rsize) % 2 ^ 64 < r.GetSize →
      MapAt r offset rsize = false) := by
  have hchar := mapAt_true_iff r offset rsize
  have hsz : r.GetSize = r.size := rfl
  have key : r.GetSize < offset + rsize → MapAt r offset rsize = false := by
    intro hlt
    cases hMap : MapAt r offset rsize
    · rfl
    · exact absurd (hchar.mp hMap).2.2.2 (by omega)
  have key2 : 2 ^ 64 ≤ offset + rsize → MapAt r offset rsize = false := by
    intro hof
    cases hMap : MapAt r offset rsize
    · rfl
    · have := (hchar.mp hMap).2.2.1
      unfold kSizeTMax at this
      exact absurd this (by omega)
  exact ⟨key, key2, fun hof _ => key2 hof⟩

/-- Concrete instance of C4, from the test MapAtWithOverflowTest: on a
region of size 8192 (two allocation granules), offset 4096 and requested
size 2^64 - 1 wrap around to 4095, below the region size, and the mapping
is still rejected. -/
theorem c4_overflow_checked_bounds_witness :
    (4096 + (2 ^ 64 - 1)) % 2 ^ 64 < (CreateWritable 8192 7 3 4).GetSize ∧
    MapAt (CreateWritable 8192 7 3 4) 4096 (2 ^ 64 - 1) = false :=
  ⟨by decide,
    (c4_overflow_checked_bounds (CreateWritable 8192 7 3 4) 4096 (2 ^ 64 - 1)).2.2
      (by decide) (by decide)⟩

/-- C7: a default-constructed Region is invalid, and every operation on it
fails recoverably rather than aborting: mapping yields an invalid mapping,
Duplicate returns an invalid Region, and the conversions return false; none
of them aborts. -/
theorem c7_default_region_recoverable (official : Bool) (offset rsize newfd : Nat) :
    defaultRegion.IsValid = false ∧
    MapAt defaultRegion offset rsize = false ∧
    Duplicate official newfd defaultRegion = Outcome.ok defaultRegion ∧
    ConvertToReadOnly official defaultRegion = Outcome.ok (false, defaultRegion) ∧
    ConvertToUnsafe official defaultRegion = Outcome.ok (false, defaultRegion) :=
  ⟨rfl, rfl, rfl, rfl, rfl⟩

/-- C9: after PassPlatformHandle the Region is invalid and the caller holds
exactly the Region's handle; after a move the moved-from Region is invalid
while the destination is valid and equal to the pre-move source. -/
theorem c9_pass_and_move_invalidate (r : PlatformSharedMemoryRegion)
    (hv : r.IsValid = true) :
    (PassPlatformHandle r).2.IsValid = false ∧
    (PassPlatformHandle r).1 = r.GetPlatformHandle ∧
    (moveRegion r).2.IsValid = false ∧
    (moveRegion r).1 = r ∧
    (moveRegion r).1.IsValid = true :=
  ⟨rfl, rfl, rfl, rfl, hv⟩

/-- Concrete instance of C9 on a freshly created writable region of the
test's size 1024. -/
theorem c9_pass_and_move_invalidate_witness :
    (CreateWritable 1024 7 3 4).IsValid = true ∧
    (PassPlatformHandle (CreateWritable 1024 7 3 4)).2.IsValid = false ∧
    (moveRegion (CreateWritable 1024 7 3 4)).2.IsValid = false :=
  ⟨by decide, (c9_pass_and_move_invalidate (CreateWritable 1024 7 3 4) (by decide)).1,
    (c9_pass_and_move_invalidate (CreateWritable 1024 7 3 4) (by decide)).2.2.1⟩

/-- C10: after PassPlatformHandle empties a Region, GetMode, GetGUID (and
GetSize) still return the values the Region had before the handle was
passed, so the metadata needed to reconstruct the Region via Take remains
readable from the invalidated source. -/
theorem c10_metadata_survives_pass (r : PlatformSharedMemoryRegion) :
    (PassPlatformHandle r).2.GetMode = r.GetMode ∧
    (PassPlatformHandle r).2.GetGUID = r.GetGUID ∧
    (PassPlatformHandle r).2.GetSize = r.GetSize :=
  ⟨rfl, rfl, rfl⟩

/-- C8: for every size accepted at creation, the created writable region
reports exactly the requested size, and the size is unchanged after
ConvertToReadOnly. -/
theorem c8_reported_size (s guid osfd os_ro_fd : Nat) (official : Bool)
    (h1 : 0 < s) (h2 : s ≤ kIntMax) :
    (CreateWritable s guid osfd os_ro_fd).GetSize = s ∧
    ∃ r2, ConvertToReadOnly official (CreateWritable s guid osfd os_ro_fd) =
        Outcome.ok (true, r2) ∧ r2.GetSize = s := by
  have hc : CreateWritable s guid osfd os_ro_fd =
      { handle :=
          { fd := Int.ofNat osfd, fdWritable := true, readonly_fd := Int.ofNat os_ro_fd }
        mode := Mode.kWritable
        size := s
        guid := guid } := by
    unfold CreateWritable
    rw [createRegion_valid_size Mode.kWritable s guid osfd os_ro_fd h1 h2]
    simp
  rw [hc]
  refine ⟨rfl, ?_⟩
  refine ⟨_, convertToReadOnly_writable official _ ?_ rfl, rfl⟩
  rw [isValid_true_iff]
  exact Int.ofNat_nonneg osfd

/-- Concrete instances of C8 at each of the test's sizes
1, 2, 3, 64, 4096 and 1048576. -/
theorem c8_reported_size_witness :
    (CreateWritable 1 7 3 4).GetSize = 1 ∧
    (CreateWritable 2 7 3 4).GetSize = 2 ∧
    (CreateWritable 3 7 3 4).GetSize = 3 ∧
    (CreateWritable 64 7 3 4).GetSize = 64 ∧
    (CreateWritable 4096 7 3 4).GetSize = 4096 ∧
    (CreateWritable 1048576 7 3 4).GetSize = 1048576 ∧
    (∃ r2, ConvertToReadOnly false (CreateWritable 1048576 7 3 4) =
        Outcome.ok (true, r2) ∧ r2.GetSize = 1048576) :=
  ⟨(c8_reported_size 1 7 3 4 false (by decide) (by decide)).1,
    (c8_reported_size 2 7 3 4 false (by decide) (by decide)).1,
    (c8_reported_size 3 7 3 4 false (by decide) (by decide)).1,
    (c8_reported_size 64 7 3 4 false (by decide) (by decide)).1,
    (c8_reported_size 4096 7 3 4 false (by decide) (by decide)).1,
    (c8_reported_size 1048576 7 3 4 false (by decide) (by decide)).1,
    (c8_reported_size 1048576 7 3 4 false (by decide) (by decide)).2⟩

/-- C5: for every size that is zero or above the signed 32-bit bound,
CreateWritable, CreateUnsafe and Take each return an invalid Region without
aborting; Take performs the size validation independently of the sender's
claimed mode, and on failure the input handle's valid descriptors are
released, never leaked. -/
theorem c5_size_validation (s : Nat) (hs : s = 0 ∨ kIntMax < s)
    (official : Bool) (guid osfd os_ro_fd : Nat) (h : FDPair) (m : Mode) :
    (CreateWritable s guid osfd os_ro_fd).IsValid = false ∧
    (CreateUnsafe s guid osfd).IsValid = false ∧
    Create official Mode.kWritable s guid osfd os_ro_fd =
      Outcome.ok (CreateWritable s guid osfd os_ro_fd) ∧
    (∃ rr, Create official Mode.kUnsafe s guid osfd os_ro_fd = Outcome.ok rr ∧
      rr.IsValid = false) ∧
    (Take h m s guid).region.IsValid = false ∧
    (Take h m s guid).released = closedFDs h := by
  have hw : CreateWritable s guid osfd os_ro_fd = defaultRegion := by
    unfold CreateWritable
    exact createRegion_invalid_size _ _ _ _ _ hs
  have hu : CreateUnsafe s guid osfd = defaultRegion := by
    unfold CreateUnsafe
    exact createRegion_invalid_size _ _ _ _ _ hs
  have ht : Take h m s guid = { region := defaultRegion, released := closedFDs h } := by
    unfold Take
    rw [if_pos hs]
  refine ⟨by rw [hw]; rfl, by rw [hu]; rfl, ?_, ?_, by rw [ht]; rfl, by rw [ht]⟩
  · unfold Create
    rw [if_neg (by decide : ¬(Mode.kWritable = Mode.kReadOnly))]
    rfl
  · refine ⟨createRegion Mode.kUnsafe s guid osfd os_ro_fd, ?_, ?_⟩
    · unfold Create
      rw [if_neg (by decide : ¬(Mode.kUnsafe = Mode.kReadOnly))]
    · rw [createRegion_invalid_size _ _ _ _ _ hs]
      rfl

/-- Concrete instances of C5 at size 0 and at INT32_MAX + 1, on a handle
holding the two valid descriptors 5 and 6 that the failed Take releases. -/
theorem c5_size_validation_witness :
    (CreateWritable 0 7 3 4).IsValid = false ∧
    (CreateUnsafe 0 7 3).IsValid = false ∧
    (CreateWritable 2147483648 7 3 4).IsValid = false ∧
    (CreateUnsafe 2147483648 7 3).IsValid = false ∧
    (Take { fd := 5, fdWritable := true, readonly_fd := 6 } Mode.kWritable 0
        7).region.IsValid = false ∧
    (Take { fd := 5, fdWritable := true, readonly_fd := 6 } Mode.kWritable 0
        7).released = closedFDs { fd := 5, fdWritable := true, readonly_fd := 6 } :=
  ⟨(c5_size_validation 0 (by decide) false 7 3 4
      { fd := 5, fdWritable := true, readonly_fd := 6 } Mode.kWritable).1,
    (c5_size_validation 0 (by decide) false 7 3 4
      { fd := 5, fdWritable := true, readonly_fd := 6 } Mode.kWritable).2.1,
    (c5_size_validation 2147483648 (by decide) false 7 3 4
      { fd := 5, fdWritable := true, readonly_fd := 6 } Mode.kWritable).1,
    (c5_size_validation 2147483648 (by decide) false 7 3 4
      { fd := 5, fdWritable := true, readonly_fd := 6 } Mode.kWritable).2.1,
    (c5_size_validation 0 (by decide) false 7 3 4
      { fd := 5, fdWritable := true, readonly_fd := 6 } Mode.kWritable).2.2.2.2.1,
    (c5_size_validation 0 (by decide) false 7 3 4
      { fd := 5, fdWritable := true, readonly_fd := 6 } Mode.kWritable).2.2.2.2.2⟩

/-- C6: creating directly in ReadOnly mode, and duplicating a valid
writable Region, are precondition violations that abort the process; the
abort carries the full diagnostic in non-official builds and occurs with the
message suppressed in official builds. -/
theorem c6_precondition_violations_abort (official : Bool)
    (s guid osfd os_ro_fd newfd : Nat) (r : PlatformSharedMemoryRegion)
    (hv : r.IsValid = true) (hm : r.GetMode = Mode.kWritable) :
    Create official Mode.kReadOnly s guid osfd os_ro_fd =
      Outcome.abort (checkMessage official kCreateReadOnlyMessage) ∧
    Duplicate official newfd r =
      Outcome.abort (checkMessage official kDuplicateWritableMessage) ∧
    (official = false →
      checkMessage official kCreateReadOnlyMessage = kCreateReadOnlyMessage ∧
      checkMessage official kDuplicateWritableMessage = kDuplicateWritableMessage) ∧
    (official = true →
      checkMessage official kCreateReadOnlyMessage = "" ∧
      checkMessage official kDuplicateWritableMessage = "") := by
  refine ⟨?_, ?_, ?_, ?_⟩
  · unfold Create
    rw [if_pos rfl]
  · unfold Duplicate
    rw [if_neg (by simp [hv]), if_pos (show r.mode = Mode.kWritable from hm)]
  · intro ho
    subst ho
    exact ⟨rfl, rfl⟩
  · intro ho
    subst ho
    exact ⟨rfl, rfl⟩

/-- Concrete instance of C6: both precondition violations abort on the
test's writable region of size 1024, with the message present in a
non-official build and suppressed in an official build. -/
theorem c6_precondition_violations_abort_witness :
    Create false Mode.kReadOnly 1024 7 3 4 =
      Outcome.abort (checkMessage false kCreateReadOnlyMessage) ∧
    Duplicate false 9 (CreateWritable 1024 7 3 4) =
      Outcome.abort (checkMessage false kDuplicateWritableMessage) ∧
    Duplicate true 9 (CreateWritable 1024 7 3 4) =
      Outcome.abort (checkMessage true kDuplicateWritableMessage) ∧
    checkMessage false kDuplicateWritableMessage = kDuplicateWritableMessage ∧
    checkMessage true kDuplicateWritableMessage = "" :=
  ⟨(c6_precondition_violations_abort false 1024 7 3 4 9 (CreateWritable 1024 7 3 4)
      (by decide) (by decide)).1,
    (c6_precondition_violations_abort false 1024 7 3 4 9 (CreateWritable 1024 7 3 4)
      (by decide) (by decide)).2.1,
    (c6_precondition_violations_abort true 1024 7 3 4 9 (CreateWritable 1024 7 3 4)
      (by decide) (by decide)).2.1,
    ((c6_precondition_violations_abort false 1024 7 3 4 9 (CreateWritable 1024 7 3 4)
      (by decide) (by decide)).2.2.1 rfl).2,
    ((c6_precondition_violations_abort true 1024 7 3 4 9 (CreateWritable 1024 7 3 4)
      (by decide) (by decide)).2.2.2 rfl).2⟩

/-- C2 as stated fails on the code: converting the test's writable region of
size 1024 to Unsafe succeeds, yet the resulting platform handle is a valid
read-write descriptor, so it can be used to perform a writable mapping —
an unsafe region keeps overt write access by design.  The readonly_fd part
of the claim does hold (the secondary descriptor is closed). -/
theorem c2_counterexample :
    ConvertToUnsafe false (CreateWritable 1024 7 3 4) =
      Outcome.ok (true,
        { handle := { fd := 3, fdWritable := true, readonly_fd := -1 }
          mode := Mode.kUnsafe
          size := 1024
          guid := 7 }) ∧
    CanMapWritable { fd := 3, fdWritable := true, readonly_fd := -1 } = true :=
  ⟨by decide, by decide⟩

/-- C2 amended: after a successful ConvertToReadOnly the resulting platform
handle cannot be used to perform a writable mapping, and after both
successful conversions away from Writable the POSIX secondary read-only
descriptor is closed (readonly_fd is negative) immediately as part of the
conversion; after ConvertToUnsafe the main handle deliberately keeps write
access, as the Unsafe mode's shape requires. -/
theorem c2_no_latent_write_capability (official : Bool)
    (r r2 : PlatformSharedMemoryRegion) :
    (ConvertToReadOnly official r = Outcome.ok (true, r2) →
      CanMapWritable r2.handle = false ∧ r2.handle.readonly_fd < 0) ∧
    (ConvertToUnsafe official r = Outcome.ok (true, r2) →
      r2.handle.readonly_fd < 0) := by
  constructor
  · intro hc
    cases hval : r.IsValid
    · rw [convertToReadOnly_invalid official r hval] at hc
      simp at hc
    · by_cases hm : r.mode = Mode.kWritable
      · rw [convertToReadOnly_writable official r hval hm] at hc
        injection hc with h3
        injection h3 with hb hr2
        rw [← hr2]
        exact ⟨by simp [CanMapWritable], show (-1 : Int) < 0 by decide⟩
      · rw [convertToReadOnly_nonwritable official r hval hm] at hc
        exact Outcome.noConfusion hc
  · intro hc
    cases hval : r.IsValid
    · rw [convertToUnsafe_invalid official r hval] at hc
      simp at hc
    · by_cases hm : r.mode = Mode.kWritable
      · rw [convertToUnsafe_writable official r hval hm] at hc
        injection hc with h3
        injection h3 with hb hr2
        rw [← hr2]
        exact show (-1 : Int) < 0 by decide
      · rw [convertToUnsafe_nonwritable official r hval hm] at hc
        exact Outcome.noConfusion hc

/-- Concrete instance of the amended C2: converting the test's writable
region of size 1024 to read-only yields a handle that cannot be mapped
writable and whose secondary descriptor is closed. -/
theorem c2_no_latent_write_capability_witness :
    ConvertToReadOnly false (CreateWritable 1024 7 3 4) =
      Outcome.ok (true,
        { handle := { fd := 4, fdWritable := false, readonly_fd := -1 }
          mode := Mode.kReadOnly
          size := 1024
          guid := 7 }) ∧
    CanMapWritable
      ({ handle := { fd := 4, fdWritable := false, readonly_fd := -1 }
         mode := Mode.kReadOnly
         size := 1024
         guid := 7 } : PlatformSharedMemoryRegion).handle = false ∧
    ({ handle := { fd := 4, fdWritable := false, readonly_fd := -1 }
       mode := Mode.kReadOnly
       size := 1024
       guid := 7 } : PlatformSharedMemoryRegion).handle.readonly_fd < 0 :=
  ⟨by decide,
    ((c2_no_latent_write_capability false (CreateWritable 1024 7 3 4) _).1
      (by decide)).1,
    ((c2_no_latent_write_capability false (CreateWritable 1024 7 3 4) _).1
      (by decide)).2⟩

/-! Post-conversion facts used by the state-machine claim. -/

theorem mode_ne_writable_of_eq {m : Mode}
    (h : m = Mode.kReadOnly ∨ m = Mode.kUnsafe) : m ≠ Mode.kWritable := by
  rcases h with h | h <;> subst h <;> decide

theorem convertToReadOnly_writable_post (official : Bool)
    (r : PlatformSharedMemoryRegion) (hv : r.IsValid = true)
    (hm : r.mode = Mode.kWritable) (hro : 0 ≤ r.handle.readonly_fd) :
    ∀ r2, ConvertToReadOnly official r = Outcome.ok (true, r2) →
      r2.IsValid = true ∧ r2.mode = Mode.kReadOnly := by
  intro r2 h2
  rw [convertToReadOnly_writable official r hv hm] at h2
  injection h2 with h3
  injection h3 with hb hr2
  rw [← hr2]
  exact ⟨by rw [isValid_true_iff]; exact hro, rfl⟩

theorem convertToUnsafe_writable_post (official : Bool)
    (r : PlatformSharedMemoryRegion) (hv : r.IsValid = true)
    (hm : r.mode = Mode.kWritable) :
    ∀ r2, ConvertToUnsafe official r = Outcome.ok (true, r2) →
      r2.IsValid = true ∧ r2.mode = Mode.kUnsafe := by
  intro r2 h2
  rw [convertToUnsafe_writable official r hv hm] at h2
  injection h2 with h3
  injection h3 with hb hr2
  rw [← hr2]
  refine ⟨?_, rfl⟩
  rw [isValid_true_iff] at hv ⊢
  exact hv

/-- C1: the mode state machine on a valid (well-formed) Region: each
conversion succeeds (returns true) exactly when the mode is Writable; after
a success the mode is the new one and both further conversions abort (each
conversion succeeds at most once and is irreversible); and either conversion
on a valid ReadOnly or Unsafe Region aborts with the diagnostic that only a
writable region may be converted (suppressed in official builds). -/
theorem c1_mode_state_machine (official : Bool) (r : PlatformSharedMemoryRegion)
    (hwf : r.Wf) :
    ((∃ r2, ConvertToReadOnly official r = Outcome.ok (true, r2)) ↔
      r.GetMode = Mode.kWritable) ∧
    ((∃ r2, ConvertToUnsafe official r = Outcome.ok (true, r2)) ↔
      r.GetMode = Mode.kWritable) ∧
    (r.GetMode ≠ Mode.kWritable →
      ConvertToReadOnly official r =
        Outcome.abort (checkMessage official kConvertToReadOnlyMessage) ∧
      ConvertToUnsafe official r =
        Outcome.abort (checkMessage official kConvertToUnsafeMessage)) ∧
    (∀ r2, ConvertToReadOnly official r = Outcome.ok (true, r2) →
      r2.IsValid = true ∧ r2.GetMode = Mode.kReadOnly ∧
      ConvertToReadOnly official r2 =
        Outcome.abort (checkMessage official kConvertToReadOnlyMessage) ∧
      ConvertToUnsafe official r2 =
        Outcome.abort (checkMessage official kConvertToUnsafeMessage)) ∧
    (∀ r2, ConvertToUnsafe official r = Outcome.ok (true, r2) →
      r2.IsValid = true ∧ r2.GetMode = Mode.kUnsafe ∧
      ConvertToReadOnly official r2 =
        Outcome.abort (checkMessage official kConvertToReadOnlyMessage) ∧
      ConvertToUnsafe official r2 =
        Outcome.abort (checkMessage official kConvertToUnsafeMessage)) := by
  obtain ⟨hv, hwsh, -, -⟩ := hwf
  have hro : r.mode = Mode.kWritable → 0 ≤ r.handle.readonly_fd := by
    intro hm
    have h3 := hwsh hm
    rw [IsWritableShaped, Bool.and_eq_true, Bool.and_eq_true] at h3
    exact of_decide_eq_true h3.2
  refine ⟨?_, ?_, ?_, ?_, ?_⟩
  · constructor
    · rintro ⟨r2, h2⟩
      by_contra hm
      rw [convertToReadOnly_nonwritable official r hv hm] at h2
      exact Outcome.noConfusion h2
    · intro hm
      exact ⟨_, convertToReadOnly_writable official r hv hm⟩
  · constructor
    · rintro ⟨r2, h2⟩
      by_contra hm
      rw [convertToUnsafe_nonwritable official r hv hm] at h2
      exact Outcome.noConfusion h2
    · intro hm
      exact ⟨_, convertToUnsafe_writable official r hv hm⟩
  · intro hm
    exact ⟨convertToReadOnly_nonwritable official r hv hm,
      convertToUnsafe_nonwritable official r hv hm⟩
  · intro r2 h2
    by_cases hm : r.mode = Mode.kWritable
    · obtain ⟨hv2, hm2⟩ :=
        convertToReadOnly_writable_post official r hv hm (hro hm) r2 h2
      exact ⟨hv2, hm2,
        convertToReadOnly_nonwritable official r2 hv2
          (mode_ne_writable_of_eq (Or.inl hm2)),
        convertToUnsafe_nonwritable official r2 hv2
          (mode_ne_writable_of_eq (Or.inl hm2))⟩
    · rw [convertToReadOnly_nonwritable official r hv hm] at h2
      exact Outcome.noConfusion h2
  · intro r2 h2
    by_cases hm : r.mode = Mode.kWritable
    · obtain ⟨hv2, hm2⟩ := convertToUnsafe_writable_post official r hv hm r2 h2
      exact ⟨hv2, hm2,
        convertToReadOnly_nonwritable official r2 hv2
          (mode_ne_writable_of_eq (Or.inr hm2)),
        convertToUnsafe_nonwritable official r2 hv2
          (mode_ne_writable_of_eq (Or.inr hm2))⟩
    · rw [convertToUnsafe_nonwritable official r hv hm] at h2
      exact Outcome.noConfusion h2

/-- Concrete instance of C1 on the test's regions: the writable region of
size 1024 converts to read-only exactly because its mode is Writable, and
the unsafe region's conversions abort with the diagnostic of the death
tests. -/
theorem c1_mode_state_machine_witness :
    (CreateWritable 1024 7 3 4).Wf ∧
    (CreateUnsafe 1024 8 5).Wf ∧
    ((∃ r2, ConvertToReadOnly false (CreateWritable 1024 7 3 4) =
        Outcome.ok (true, r2)) ↔
      (CreateWritable 1024 7 3 4).GetMode = Mode.kWritable) ∧
    (ConvertToReadOnly false (CreateUnsafe 1024 8 5) =
      Outcome.abort (checkMessage false kConvertToReadOnlyMessage) ∧
    ConvertToUnsafe false (CreateUnsafe 1024 8 5) =
      Outcome.abort (checkMessage false kConvertToUnsafeMessage)) :=
  ⟨by decide, by decide,
    (c1_mode_state_machine false (CreateWritable 1024 7 3 4) (by decide)).1,
    (c1_mode_state_machine false (CreateUnsafe 1024 8 5) (by decide)).2.2.1
      (by decide)⟩

/-! The permission verifier agrees with the three permission shapes. -/

theorem check_writable_eq_shape (h : FDPair) (s : Nat) :
    CheckPlatformHandlePermissionsCorrespondToMode h Mode.kWritable s =
      IsWritableShaped h := by
  unfold CheckPlatformHandlePermissionsCorrespondToMode IsWritableShaped
    expectedWritableAccess
  rcases h with ⟨fd, w, rofd⟩
  by_cases h1 : fd < 0
  · rw [if_pos h1]
    simp only
    have : decide ((0:Int) ≤ fd) = false := by simp; omega
    rw [this]
    simp
  · rw [if_neg h1]
    have h0 : decide ((0:Int) ≤ fd) = true := by simp; omega
    simp only
    cases w
    · rw [if_pos (by simp)]
      simp
    · rw [if_neg (by simp)]
      simp [h0]

theorem check_readonly_eq_shape (h : FDPair) (s : Nat) :
    CheckPlatformHandlePermissionsCorrespondToMode h Mode.kReadOnly s =
      IsReadOnlyShaped h := by
  unfold CheckPlatformHandlePermissionsCorrespondToMode IsReadOnlyShaped
    expectedWritableAccess
  rcases h with ⟨fd, w, rofd⟩
  by_cases h1 : fd < 0
  · rw [if_pos h1]
    simp only
    have : decide ((0:Int) ≤ fd) = false := by simp; omega
    rw [this]
    simp
  · rw [if_neg h1]
    have h0 : decide ((0:Int) ≤ fd) = true := by simp; omega
    simp only
    cases w
    · rw [if_neg (by simp)]
      simp [h0]
    · rw [if_pos (by simp)]
      simp

theorem check_unsafe_eq_shape (h : FDPair) (s : Nat) :
    CheckPlatformHandlePermissionsCorrespondToMode h Mode.kUnsafe s =
      IsUnsafeShaped h := by
  unfold CheckPlatformHandlePermissionsCorrespondToMode IsUnsafeShaped
    expectedWritableAccess
  rcases h with ⟨fd, w, rofd⟩
  by_cases h1 : fd < 0
  · rw [if_pos h1]
    simp only
    have : decide ((0:Int) ≤ fd) = false := by simp; omega
    rw [this]
    simp
  · rw [if_neg h1]
    have h0 : decide ((0:Int) ≤ fd) = true := by simp; omega
    simp only
    cases w
    · rw [if_pos (by simp)]
      simp
    · rw [if_neg (by simp)]
      simp [h0]

theorem shapes_mutually_exclusive (h : FDPair) :
    ¬(IsWritableShaped h = true ∧ IsReadOnlyShaped h = true) ∧
    ¬(IsWritableShaped h = true ∧ IsUnsafeShaped h = true) ∧
    ¬(IsReadOnlyShaped h = true ∧ IsUnsafeShaped h = true) := by
  unfold IsWritableShaped IsReadOnlyShaped IsUnsafeShaped
  rcases h with ⟨fd, w, rofd⟩
  cases w <;> simp <;> omega

/-- C3: for every valid (well-formed) Region and every claimed mode, the
permission verifier returns true exactly when the claimed mode is the
Region's actual mode; on every handle it computes exactly the claimed
mode's permission shape, and the three shapes are mutually exclusive. -/
theorem c3_check_permissions_match_mode (r : PlatformSharedMemoryRegion)
    (m : Mode) (hwf : r.Wf) :
    (CheckPlatformHandlePermissionsCorrespondToMode r.GetPlatformHandle m
        r.GetSize = true ↔ m = r.GetMode) ∧
    (∀ h : FDPair,
      CheckPlatformHandlePermissionsCorrespondToMode h Mode.kWritable
          r.GetSize = IsWritableShaped h ∧
      CheckPlatformHandlePermissionsCorrespondToMode h Mode.kReadOnly
          r.GetSize = IsReadOnlyShaped h ∧
      CheckPlatformHandlePermissionsCorrespondToMode h Mode.kUnsafe
          r.GetSize = IsUnsafeShaped h) ∧
    (∀ h : FDPair,
      ¬(IsWritableShaped h = true ∧ IsReadOnlyShaped h = true) ∧
      ¬(IsWritableShaped h = true ∧ IsUnsafeShaped h = true) ∧
      ¬(IsReadOnlyShaped h = true ∧ IsUnsafeShaped h = true)) := by
  obtain ⟨hv, hwsh, hrosh, hush⟩ := hwf
  refine ⟨?_, fun h => ⟨check_writable_eq_shape h _, check_readonly_eq_shape h _,
    check_unsafe_eq_shape h _⟩, fun h => shapes_mutually_exclusive h⟩
  have hexcl := shapes_mutually_exclusive r.handle
  have hgp : r.GetPlatformHandle = r.handle := rfl
  rw [hgp]
  cases m <;> cases hmr : r.mode
  case kWritable.kWritable =>
    rw [check_writable_eq_shape]
    simp [GetMode, hmr, hwsh hmr]
  case kWritable.kReadOnly =>
    rw [check_writable_eq_shape]
    simp only [GetMode, hmr]
    constructor
    · intro hc
      exact absurd ⟨hc, hrosh hmr⟩ hexcl.1
    · intro hc
      exact Mode.noConfusion hc
  case kWritable.kUnsafe =>
    rw [check_writable_eq_shape]
    simp only [GetMode, hmr]
    constructor
    · intro hc
      exact absurd ⟨hc, hush hmr⟩ hexcl.2.1
    · intro hc
      exact Mode.noConfusion hc
  case kReadOnly.kWritable =>
    rw [check_readonly_eq_shape]
    simp only [GetMode, hmr]
    constructor
    · intro hc
      exact absurd ⟨hwsh hmr, hc⟩ hexcl.1
    · intro hc
      exact Mode.noConfusion hc
  case kReadOnly.kReadOnly =>
    rw [check_readonly_eq_shape]
    simp [GetMode, hmr, hrosh hmr]
  case kReadOnly.kUnsafe =>
    rw [check_readonly_eq_shape]
    simp only [GetMode, hmr]
    constructor
    · intro hc
      exact absurd ⟨hc, hush hmr⟩ hexcl.2.2
    · intro hc
      exact Mode.noConfusion hc
  case kUnsafe.kWritable =>
    rw [check_unsafe_eq_shape]
    simp only [GetMode, hmr]
    constructor
    · intro hc
      exact absurd ⟨hwsh hmr, hc⟩ hexcl.2.1
    · intro hc
      exact Mode.noConfusion hc
  case kUnsafe.kReadOnly =>
    rw [check_unsafe_eq_shape]
    simp only [GetMode, hmr]
    constructor
    · intro hc
      exact absurd ⟨hrosh hmr, hc⟩ hexcl.2.2
    · intro hc
      exact Mode.noConfusion hc
  case kUnsafe.kUnsafe =>
    rw [check_unsafe_eq_shape]
    simp [GetMode, hmr, hush hmr]

/-- Concrete instance of C3, following the test: on the writable region the
verifier accepts exactly the Writable claim, and after conversion to
read-only it accepts exactly the ReadOnly claim. -/
theorem c3_check_permissions_match_mode_witness :
    (CreateWritable 1024 7 3 4).Wf ∧
    (CheckPlatformHandlePermissionsCorrespondToMode
        (CreateWritable 1024 7 3 4).GetPlatformHandle Mode.kWritable
        (CreateWritable 1024 7 3 4).GetSize = true ↔
      Mode.kWritable = (CreateWritable 1024 7 3 4).GetMode) ∧
    (CheckPlatformHandlePermissionsCorrespondToMode
        (CreateWritable 1024 7 3 4).GetPlatformHandle Mode.kReadOnly
        (CreateWritable 1024 7 3 4).GetSize = true ↔
      Mode.kReadOnly = (CreateWritable 1024 7 3 4).GetMode) :=
  ⟨by decide,
    (c3_check_permissions_match_mode (CreateWritable 1024 7 3 4) Mode.kWritable
      (by decide)).1,
    (c3_check_permissions_match_mode (CreateWritable 1024 7 3 4) Mode.kReadOnly
      (by decide)).1⟩

end PlatformSharedMemoryRegion

end Base
